import Mathlib

/-!
Verification development for the Coruscant Bank OTC service
(apps/coruscant-bank-otc-service). Shallow embedding of the domain layer
(value objects, the Loan entity), the collateral top-up use case, the retry
utility, the SNS event publisher and the HTTP validation / idempotency
middleware, all translated from the TypeScript source. Monetary values are
rationals; JavaScript `Math.round` is modelled as floor(x + 1/2) (round half
toward positive infinity, exact for the non-negative values that occur
here); thrown exceptions are modelled with `Except String`, carrying the
source's error messages or exception codes.
-/

/-- JavaScript `Math.round`: round half toward positive infinity.
Uses the executable `Rat.floor` so concrete instances evaluate. -/
def jsRound (x : ℚ) : Int := (x + 1/2).floor

/-- The rounding applied by the `Amount` constructor
(src/domain/value-objects/amount.ts): `Math.round(value * 100) / 100`. -/
def roundTo2 (v : ℚ) : ℚ := (jsRound (v * 100) : ℚ) / 100

/-- Constructor of the `Amount` value object (amount.ts). The argument is
the numeric input after JavaScript coercion: `none` models `NaN` (a
non-numeric string given to `parseFloat`). Throws on `NaN` and on negative
input, otherwise stores the value rounded to 2 decimal places. -/
def Amount.create (v : Option ℚ) : Except String ℚ :=
  match v with
  | none => .error ("Amount must be a non-negative number")
  | some n =>
    if n < 0 then .error ("Amount must be a non-negative number")
    else .ok (roundTo2 n)

/-- `Amount.add` (amount.ts): `new Amount(this.value + other.value)`. -/
def Amount.add (a b : ℚ) : Except String ℚ := Amount.create (some (a + b))

/-- `Amount.subtract` (amount.ts): throws when the result would be negative,
otherwise `new Amount(this.value - other.value)`. -/
def Amount.subtract (a b : ℚ) : Except String ℚ :=
  if a < b then .error ("Cannot subtract amount greater than current value")
  else Amount.create (some (a - b))

/-- `Amount.multiply` (amount.ts): `new Amount(this.value * factor)`. -/
def Amount.multiply (a factor : ℚ) : Except String ℚ :=
  Amount.create (some (a * factor))

/-- `Amount.divide` (amount.ts): throws on a zero divisor, otherwise
`new Amount(this.value / divisor)`. -/
def Amount.divide (a divisor : ℚ) : Except String ℚ :=
  if divisor = 0 then .error ("Cannot divide by zero")
  else Amount.create (some (a / divisor))

/-- The invariant of a stored `Amount` value: non-negative and a fixed
point of rounding to 2 decimal places. -/
def isAmountValue (v : ℚ) : Prop := 0 ≤ v ∧ roundTo2 v = v

/-- `LtvRatio` constructor (src/domain/value-objects/ltv-ratio.ts): throws
when the collateral value is zero, otherwise stores
`loanAmount / collateralValue * 100`. -/
def LtvRatio.create (loanAmount collateralValue : ℚ) : Except String ℚ :=
  if collateralValue = 0 then
    .error ("Collateral value cannot be zero when calculating LTV")
  else .ok (loanAmount / collateralValue * 100)

/-- `LtvRatio.isAboveThreshold` (ltv-ratio.ts): strictly greater. -/
def LtvRatio.isAboveThreshold (value threshold : ℚ) : Bool :=
  decide (threshold < value)

/-- `LtvRatio.isBelowThreshold` (ltv-ratio.ts): strictly less. -/
def LtvRatio.isBelowThreshold (value threshold : ℚ) : Bool :=
  decide (value < threshold)

/-- `LoanStatus` (src/domain/entities/loan.ts). -/
inductive LoanStatus
  | PENDING
  | ACTIVE
  | LIQUIDATED
  | REPAID
deriving DecidableEq

/-- The `Loan` entity (loan.ts). The `createdAt` / `lastModified` `Date`
fields are elided: no modelled behaviour reads them. -/
structure Loan where
  id : String
  borrowerId : String
  amount : ℚ
  collateralAmount : ℚ
  assetType : String
  status : LoanStatus
deriving DecidableEq

/-- `Loan.create` (loan.ts): a fresh loan starts in `PENDING`. -/
def Loan.create (id borrowerId : String) (amount collateralAmount : ℚ)
    (assetType : String) : Loan :=
  ⟨id, borrowerId, amount, collateralAmount, assetType, .PENDING⟩

/-- `Loan.reconstruct` (loan.ts): rebuild a loan in an arbitrary status. -/
def Loan.reconstruct (id borrowerId : String) (amount collateralAmount : ℚ)
    (assetType : String) (status : LoanStatus) : Loan :=
  ⟨id, borrowerId, amount, collateralAmount, assetType, status⟩

/-- `Loan.calculateLtv` (loan.ts): the collateral value is
`collateralAmount.multiply(currentPrice)`, then the `LtvRatio` constructor
runs on it. -/
def Loan.calculateLtv (l : Loan) (currentPrice : ℚ) : Except String ℚ := do
  let collateralValue ← Amount.multiply l.collateralAmount currentPrice
  LtvRatio.create l.amount collateralValue

/-- `Loan.canActivate` (loan.ts): `false` unless the status is `PENDING`,
otherwise `calculateLtv(...).isBelowThreshold(activationThreshold)`; the
default threshold is 50. A thrown LTV computation propagates. -/
def Loan.canActivate (l : Loan) (currentPrice activationThreshold : ℚ) :
    Except String Bool :=
  if l.status ≠ .PENDING then .ok false
  else (l.calculateLtv currentPrice).map
    (fun ltv => LtvRatio.isBelowThreshold ltv activationThreshold)

/-- `Loan.shouldLiquidate` (loan.ts): `false` unless the status is `ACTIVE`,
otherwise `calculateLtv(...).isAboveThreshold(liquidationThreshold)`; the
default threshold is 80. A thrown LTV computation propagates. -/
def Loan.shouldLiquidate (l : Loan) (currentPrice liquidationThreshold : ℚ) :
    Except String Bool :=
  if l.status ≠ .ACTIVE then .ok false
  else (l.calculateLtv currentPrice).map
    (fun ltv => LtvRatio.isAboveThreshold ltv liquidationThreshold)

/-- `Loan.activate` (loan.ts): only a `PENDING` loan activates. -/
def Loan.activate (l : Loan) : Except String Loan :=
  if l.status ≠ .PENDING then .error ("Cannot activate loan in status")
  else .ok { l with status := .ACTIVE }

/-- `Loan.liquidate` (loan.ts): only an `ACTIVE` loan liquidates, and it
moves directly to `LIQUIDATED`. -/
def Loan.liquidate (l : Loan) : Except String Loan :=
  if l.status ≠ .ACTIVE then .error ("Cannot liquidate loan in status")
  else .ok { l with status := .LIQUIDATED }

/-- `Loan.repay` (loan.ts): only an `ACTIVE` loan is repaid. -/
def Loan.repay (l : Loan) : Except String Loan :=
  if l.status ≠ .ACTIVE then .error ("Cannot repay loan in status")
  else .ok { l with status := .REPAID }

/-- `Loan.addCollateral` (loan.ts): unconditionally adds to the collateral
amount; there is no status guard in the entity. -/
def Loan.addCollateral (l : Loan) (amount : ℚ) : Except String Loan :=
  (Amount.add l.collateralAmount amount).map
    (fun c => { l with collateralAmount := c })

/-- One mutating operation on a loan, as invoked by callers of the entity. -/
inductive LoanOp
  | activate
  | liquidate
  | repay
  | addCollateral (amount : ℚ)

/-- Apply one operation; a thrown operation leaves the entity unchanged
(the TypeScript methods mutate only after their guard passes). -/
def Loan.applyOp (l : Loan) (op : LoanOp) : Loan :=
  match op with
  | .activate => match l.activate with | .ok m => m | .error _ => l
  | .liquidate => match l.liquidate with | .ok m => m | .error _ => l
  | .repay => match l.repay with | .ok m => m | .error _ => l
  | .addCollateral a => match l.addCollateral a with | .ok m => m | .error _ => l

/-- The statuses after each prefix of the operation sequence, excluding the
starting status. -/
def Loan.statusTraceAux (l : Loan) : List LoanOp → List LoanStatus
  | [] => []
  | op :: rest => (l.applyOp op).status :: (l.applyOp op).statusTraceAux rest

/-- The sequence of statuses a loan passes through under a sequence of
operations, starting from its current status. -/
def Loan.statusTrace (l : Loan) (ops : List LoanOp) : List LoanStatus :=
  l.status :: l.statusTraceAux ops

/-- The status transitions the entity can actually make: stutter, or one of
(PENDING, ACTIVE), (ACTIVE, LIQUIDATED), (ACTIVE, REPAID). -/
def legalStep (s t : LoanStatus) : Bool :=
  s = t || (s = .PENDING && t = .ACTIVE) || (s = .ACTIVE && t = .LIQUIDATED)
    || (s = .ACTIVE && t = .REPAID)

/-- The lifecycle statuses named by the specification. -/
inductive SpecStatus
  | statusNew
  | active
  | liquidating
  | liquidated
deriving DecidableEq

/-- Map a code status to the spec's name for it. `REPAID` has no
counterpart in the specification's lifecycle. -/
def specStatusOf : LoanStatus → Option SpecStatus
  | .PENDING => some .statusNew
  | .ACTIVE => some .active
  | .LIQUIDATED => some .liquidated
  | .REPAID => none

/-- The full lifecycle claimed by the specification, in order. -/
def specLifecycle : List SpecStatus :=
  [.statusNew, .active, .liquidating, .liquidated]

/-- JavaScript `String.prototype.trim`: strip leading and trailing
whitespace (structural model, so concrete instances evaluate). -/
def trimString (s : String) : String :=
  ⟨((s.data.dropWhile Char.isWhitespace).reverse.dropWhile Char.isWhitespace).reverse⟩

/-- `LoanId` constructor (src/domain/value-objects/loan-id.ts): trims the
input and throws when the trimmed value is empty. -/
def LoanId.create (value : String) : Except String String :=
  if trimString value = "" then .error ("LoanId cannot be empty")
  else .ok (trimString value)

/-- `BorrowerId` constructor (borrower-id.ts): same shape as `LoanId`. -/
def BorrowerId.create (value : String) : Except String String :=
  if trimString value = "" then .error ("BorrowerId cannot be empty")
  else .ok (trimString value)

/-- `AssetType` constructor (asset-type.ts): the only supported value is
`BSK`. -/
def AssetType.create (value : String) : Except String String :=
  if value = "BSK" then .ok value
  else .error ("Invalid asset type")

/-- The `LoanRepository` port (domain/repositories/loan-repository.ts),
modelled as the partial map `findById` exposes. -/
def Repo : Type := String → Option Loan

/-- `save` on the repository: the loan becomes the entry under its id. -/
def Repo.save (repo : Repo) (l : Loan) : Repo :=
  fun i => if i = l.id then some l else repo i

/-- The body of `SubmitCollateralTopUpRequest`
(application/use-cases/submit-collateral-top-up.ts). `amount` is the
numeric reading of the request's decimal string (`none` models a string
`parseFloat` cannot parse). -/
structure TopUpRequest where
  requestId : String
  loanId : String
  borrowerId : String
  amount : Option ℚ
  assetType : String

/-- `SubmitCollateralTopUpUseCase.execute` (submit-collateral-top-up.ts):
parse the value objects in source order, look the loan up, reject on a
missing loan or a borrower mismatch, then add the collateral and save.
There is no check of the loan's status anywhere on this path. Event
publication / forwarding after the save is an outbound effect that does not
touch the repository and is elided. Errors carry the `DomainException`
codes. -/
def SubmitCollateralTopUpUseCase.execute (repo : Repo) (req : TopUpRequest) :
    Except String Repo := do
  let lid ← LoanId.create req.loanId
  let bid ← BorrowerId.create req.borrowerId
  let amount ← Amount.create req.amount
  let _ ← AssetType.create req.assetType
  match repo lid with
  | none => .error ("LOAN_NOT_FOUND")
  | some loan =>
    if loan.borrowerId = bid then do
      let updated ← loan.addCollateral amount
      .ok (Repo.save repo updated)
    else .error ("BORROWER_MISMATCH")

/-- The shape of errors inspected by the default retry predicate
(src/utils/retry.ts): an optional Node error `code` and an optional HTTP
response status. -/
structure JsError where
  code : Option String
  responseStatus : Option Nat
deriving DecidableEq

/-- `DEFAULT_RETRY_OPTIONS.retryableErrors` (retry.ts): connection errors
and timeouts, and HTTP 5xx responses. -/
def defaultRetryable (e : JsError) : Bool :=
  if e.code = some ("ECONNREFUSED") ∨ e.code = some ("ECONNRESET")
      ∨ e.code = some ("ETIMEDOUT") then true
  else
    match e.responseStatus with
    | some status => decide (500 ≤ status ∧ status < 600)
    | none => false

/-- `RetryOptions` (retry.ts). Delays are rational milliseconds. -/
structure RetryOptions where
  maxAttempts : Nat
  initialDelayMs : ℚ
  maxDelayMs : ℚ
  backoffFactor : ℚ
  retryableErrors : JsError → Bool

/-- `DEFAULT_RETRY_OPTIONS` (retry.ts): at most 3 attempts, initial delay
100 ms, delay cap 5000 ms, factor 2. -/
def DEFAULT_RETRY_OPTIONS : RetryOptions :=
  ⟨3, 100, 5000, 2, defaultRetryable⟩

/-- The attempt loop of `withRetry` (retry.ts). `fn k` is the outcome of
the k-th call of the wrapped operation (1-based). Returns the final outcome
together with the list of backoff delays slept, in order. The fuel equals
the attempts remaining, so it never runs out before the `attempt >=
maxAttempts` guard fires. -/
def withRetryGo {T : Type} (opts : RetryOptions) (fn : Nat → Except JsError T) :
    Nat → Nat → Except JsError T × List ℚ
  | 0, _ => (.error ⟨none, none⟩, [])
  | fuel + 1, attempt =>
    match fn attempt with
    | .ok v => (.ok v, [])
    | .error e =>
      if opts.retryableErrors e = false ∨ opts.maxAttempts ≤ attempt then
        (.error e, [])
      else
        let delayMs := min (opts.initialDelayMs * opts.backoffFactor ^ (attempt - 1))
          opts.maxDelayMs
        let r := withRetryGo opts fn fuel (attempt + 1)
        (r.1, delayMs :: r.2)

/-- `withRetry` (retry.ts): run the loop starting at attempt 1. -/
def withRetry {T : Type} (fn : Nat → Except JsError T) (opts : RetryOptions) :
    Except JsError T × List ℚ :=
  withRetryGo opts fn opts.maxAttempts 1

/-- `LoanEventMessage` (services/sns/event-publisher.types.ts). `data` is
the opaque request body. -/
structure LoanEventMessage where
  eventType : String
  requestId : String
  data : String
  timestamp : String
deriving DecidableEq

/-- A record in the `EventHistoryStore` (utils/event-store.ts), as built by
`EventPublisher.publishEvent`. -/
structure StoredEvent where
  id : String
  type : String
  direction : String
  data : LoanEventMessage
  timestamp : String
deriving DecidableEq

/-- `EventPublisher.publishEvent` (services/sns/event-publisher.ts). The
ambient effects are explicit parameters: `freshUuid` is the value `uuidv4()`
returns on this call, `now` the clock reading, `snsMessageId` the message id
the SNS client would return. The method records an OUTBOUND event whose id
is the fresh UUID, then either skips SNS (self-publishing) and returns the
UUID, or publishes and returns the SNS message id. -/
def EventPublisher.publishEvent (selfPublishing : Bool)
    (freshUuid now snsMessageId : String) (msg : LoanEventMessage)
    (store : List StoredEvent) : String × List StoredEvent :=
  let ev : StoredEvent := ⟨freshUuid, msg.eventType, ("OUTBOUND"), msg, now⟩
  let recorded := ev :: store
  if selfPublishing then (freshUuid, recorded) else (snsMessageId, recorded)

/-- A raw JSON request body as the Zod schemas in
src/middleware/validators.ts see it: each field is `none` when absent or
not a string. -/
structure RawBody where
  requestId : Option String
  loanId : Option String
  borrowerId : Option String
  amount : Option String
deriving DecidableEq

/-- One `z.string().nonempty()` field: fails when the field is missing,
not a string, or the empty string. -/
def zodNonemptyString (f : Option String) : Except String String :=
  match f with
  | none => .error ("Required")
  | some s => if s = "" then .error ("String must contain at least 1 character")
    else .ok s

/-- `loanApplicationSchema.parse` (validators.ts): the four fields, each a
nonempty string. No length cap and no numeric constraint appear in the
schema. -/
def loanApplicationParse (b : RawBody) : Except String RawBody := do
  let _ ← zodNonemptyString b.requestId
  let _ ← zodNonemptyString b.loanId
  let _ ← zodNonemptyString b.amount
  let _ ← zodNonemptyString b.borrowerId
  .ok b

/-- `collateralTopUpSchema.parse` (validators.ts): identical fields. -/
def collateralTopUpParse (b : RawBody) : Except String RawBody := do
  let _ ← zodNonemptyString b.requestId
  let _ ← zodNonemptyString b.loanId
  let _ ← zodNonemptyString b.borrowerId
  let _ ← zodNonemptyString b.amount
  .ok b

/-- `validateLoanApplicationRequest` (validators.ts): `none` means the
middleware calls `next()`; `some 400` means it answered with a validation
error. -/
def validateLoanApplicationRequest (b : RawBody) : Option Nat :=
  match loanApplicationParse b with
  | .ok _ => none
  | .error _ => some 400

/-- `validateCollateralTopUpRequest` (validators.ts). -/
def validateCollateralTopUpRequest (b : RawBody) : Option Nat :=
  match collateralTopUpParse b with
  | .ok _ => none
  | .error _ => some 400

/-- A loan tracked by the `FakeLiquidationService`
(services/sns/event-publisher.spec.ts, class FakeLiquidationService). -/
structure FakeLoan where
  loanId : String
  borrowerId : String
  amount : ℚ
  collateral : ℚ
deriving DecidableEq

/-- `FakeLiquidationService.addLoan`: store the loan under its id
(`Map.set`: an existing entry under the same id is replaced). -/
def FakeLiquidationService.addLoan (loans : List FakeLoan) (entry : FakeLoan) :
    List FakeLoan :=
  entry :: loans.filter (fun l => l.loanId ≠ entry.loanId)

/-- `FakeLiquidationService.updateCollateral`: add to the collateral of the
matching loan; a missing loan is only logged, the state is unchanged. -/
def FakeLiquidationService.updateCollateral (loans : List FakeLoan)
    (loanId : String) (additionalCollateral : ℚ) : List FakeLoan :=
  loans.map (fun l =>
    if l.loanId = loanId then { l with collateral := l.collateral + additionalCollateral }
    else l)

/-- The mutable state behind the API router (routes/api.ts, self-publishing
configuration with the fake liquidation service attached): the shared
`processedRequests` set given to `idempotencyCheck`, the event history the
publisher appends to, and the fake service's loans. -/
structure ApiState where
  processedRequests : List String
  eventHistory : List StoredEvent
  fakeLoans : List FakeLoan
deriving DecidableEq

/-- The HTTP statuses the modelled handlers answer with. -/
inductive HttpStatus
  | s202
  | s400
  | s409
deriving DecidableEq

/-- `idempotencyCheck` (middleware/validators.ts): 400 on a missing or
empty `requestId` (falsy), 409 when the id is already in the set, otherwise
the id is added and the chain continues. `none` means `next()` was called
with the given new state. -/
def idempotencyCheck (st : ApiState) (requestId : Option String) :
    Option HttpStatus × ApiState :=
  match requestId with
  | none => (some .s400, st)
  | some rid =>
    if rid = "" then (some .s400, st)
    else if rid ∈ st.processedRequests then (some .s409, st)
    else (none, { st with processedRequests := rid :: st.processedRequests })

/-- `POST /loan-applications` (routes/api.ts), in the self-publishing mode
with the fake liquidation service set: Zod validation, then the idempotency
check, then the handler publishes a `LOAN_APPLICATION` event and adds the
loan to the fake service with collateral `parseFloat(amount) * 2`.
`freshUuid` and `now` are the ambient uuid / clock values of the call;
`parsedAmount` is `parseFloat` of the body's amount string. -/
def postLoanApplication (st : ApiState) (b : RawBody) (freshUuid now : String)
    (parsedAmount : ℚ) : HttpStatus × ApiState :=
  match validateLoanApplicationRequest b with
  | some _ => (.s400, st)
  | none =>
    match idempotencyCheck st b.requestId with
    | (some stop, st1) => (stop, st1)
    | (none, st1) =>
      let rid := b.requestId.getD ""
      let msg : LoanEventMessage := ⟨("LOAN_APPLICATION"), rid, ("body"), now⟩
      let pub := EventPublisher.publishEvent true freshUuid now ("") msg st1.eventHistory
      let entry : FakeLoan :=
        ⟨b.loanId.getD "", b.borrowerId.getD "", parsedAmount, parsedAmount * 2⟩
      (.s202, { st1 with
        eventHistory := pub.2,
        fakeLoans := FakeLiquidationService.addLoan st1.fakeLoans entry })

/-- `POST /collateral-top-ups` (routes/api.ts), same configuration: Zod
validation, the shared idempotency check, then a `COLLATERAL_TOP_UP` event
and `updateCollateral` on the fake service. -/
def postCollateralTopUp (st : ApiState) (b : RawBody) (freshUuid now : String)
    (parsedAmount : ℚ) : HttpStatus × ApiState :=
  match validateCollateralTopUpRequest b with
  | some _ => (.s400, st)
  | none =>
    match idempotencyCheck st b.requestId with
    | (some stop, st1) => (stop, st1)
    | (none, st1) =>
      let rid := b.requestId.getD ""
      let msg : LoanEventMessage := ⟨("COLLATERAL_TOP_UP"), rid, ("body"), now⟩
      let pub := EventPublisher.publishEvent true freshUuid now ("") msg st1.eventHistory
      (.s202, { st1 with
        eventHistory := pub.2,
        fakeLoans := FakeLiquidationService.updateCollateral st1.fakeLoans
          (b.loanId.getD "") parsedAmount })

/-- Modelled from the spec: a digit character. -/
def isDigitChar (c : Char) : Bool := decide ('0' ≤ c ∧ c ≤ '9')

/-- Modelled from the spec: `amount` "is a positive decimal" — digits with
at most one decimal point and a nonzero digit somewhere. Used only to state
the validation claim the schema is compared against. -/
def isPositiveDecimalStr (s : String) : Bool :=
  decide (s.data ≠ []) &&
  s.data.all (fun c => isDigitChar c || c = '.') &&
  decide (s.data.count '.' ≤ 1) &&
  s.data.any (fun c => isDigitChar c && c ≠ '0')

/-- Modelled from the spec: the validation rule the specification claims
for `POST /loan-applications` — `principal` a positive decimal, `loanId`
and `borrowerId` non-empty strings of at most 128 characters. -/
def specLoanApplicationValid (b : RawBody) : Bool :=
  (match b.requestId with | some s => decide (s ≠ "") | none => false) &&
  (match b.loanId with
    | some s => decide (s ≠ "") && decide (s.length ≤ 128)
    | none => false) &&
  (match b.borrowerId with
    | some s => decide (s ≠ "") && decide (s.length ≤ 128)
    | none => false) &&
  (match b.amount with | some s => isPositiveDecimalStr s | none => false)

/-- The executable `Rat.floor` agrees with the mathematical floor. -/
lemma ratFloor_eq_intFloor (q : ℚ) : q.floor = ⌊q⌋ := by
  rw [Rat.floor_def' q, Rat.floor_def]

/-- `jsRound` is the mathematical floor of `x + 1/2`. -/
lemma jsRound_eq (x : ℚ) : jsRound x = ⌊x + 1/2⌋ := ratFloor_eq_intFloor _

/-- Evaluation rule for `jsRound` from two bounds. -/
lemma jsRound_eval (x : ℚ) (n : Int) (h1 : (n : ℚ) ≤ x + 1/2)
    (h2 : x + 1/2 < n + 1) : jsRound x = n := by
  rw [jsRound_eq]
  exact Int.floor_eq_iff.mpr ⟨h1, by linarith⟩

/-- Evaluation rule for `roundTo2` from two bounds. -/
lemma roundTo2_eval (v : ℚ) (n : Int) (r : ℚ) (h1 : (n : ℚ) ≤ v * 100 + 1/2)
    (h2 : v * 100 + 1/2 < n + 1) (h3 : (n : ℚ) / 100 = r) : roundTo2 v = r := by
  rw [roundTo2, jsRound_eval (v * 100) n h1 h2, h3]

/-- Rounding a non-negative value stays non-negative. -/
lemma roundTo2_nonneg (v : ℚ) (h : 0 ≤ v) : 0 ≤ roundTo2 v := by
  unfold roundTo2
  have h1 : (0 : Int) ≤ jsRound (v * 100) := by
    rw [jsRound_eq, Int.le_floor]
    push_cast
    linarith
  positivity

/-- Integer hundredths are fixed points of `roundTo2`. -/
lemma roundTo2_intDiv (n : Int) : roundTo2 ((n : ℚ) / 100) = (n : ℚ) / 100 := by
  unfold roundTo2
  have h1 : jsRound ((n : ℚ) / 100 * 100) = n := by
    apply jsRound_eval
    · linarith
    · linarith
  rw [h1]

/-- `roundTo2` is idempotent. -/
lemma roundTo2_idem (v : ℚ) : roundTo2 (roundTo2 v) = roundTo2 v := by
  rw [show roundTo2 v = ((jsRound (v * 100) : ℚ)) / 100 from rfl]
  exact roundTo2_intDiv _

/-- A fixed point of `roundTo2` is an integer number of hundredths. -/
lemma fixed_roundTo2_exists_int (v : ℚ) (h : roundTo2 v = v) :
    ∃ n : Int, v = (n : ℚ) / 100 := by
  refine ⟨jsRound (v * 100), ?_⟩
  nth_rewrite 1 [← h]
  rfl

/-- The sum of two fixed points of `roundTo2` is a fixed point. -/
lemma roundTo2_add_fixed (a b : ℚ) (ha : roundTo2 a = a) (hb : roundTo2 b = b) :
    roundTo2 (a + b) = a + b := by
  obtain ⟨m, hm⟩ := fixed_roundTo2_exists_int a ha
  obtain ⟨n, hn⟩ := fixed_roundTo2_exists_int b hb
  subst hm
  subst hn
  have : (m : ℚ) / 100 + (n : ℚ) / 100 = ((m + n : Int) : ℚ) / 100 := by
    push_cast
    ring
  rw [this, roundTo2_intDiv]

/-- Every value the `Amount` constructor accepts satisfies the invariant. -/
lemma Amount.create_ok_invariant (o : Option ℚ) (a : ℚ)
    (h : Amount.create o = .ok a) : isAmountValue a := by
  match o with
  | none => simp [Amount.create] at h
  | some n =>
    simp only [Amount.create] at h
    by_cases hn : n < 0
    · simp [hn] at h
    · simp [hn] at h
      subst h
      exact ⟨roundTo2_nonneg n (le_of_not_lt hn), roundTo2_idem n⟩

/-- Bind on a successful `Except` computation reduces. -/
lemma exceptBindOk {e a b : Type} (x : a) (f : a → Except e b) :
    (Except.ok x : Except e a) >>= f = f x := rfl

/-- Bind on a failed `Except` computation propagates the error. -/
lemma exceptBindError {e a b : Type} (err : e) (f : a → Except e b) :
    (Except.error err : Except e a) >>= f = Except.error err := rfl

/-- Map on a successful `Except` computation reduces. -/
lemma exceptMapOk {e a b : Type} (f : a → b) (x : a) :
    Except.map f (Except.ok x : Except e a) = Except.ok (f x) := rfl

/-- Map on a failed `Except` computation propagates the error. -/
lemma exceptMapError {e a b : Type} (f : a → b) (err : e) :
    Except.map f (Except.error err : Except e a) = Except.error err := rfl

/-- C9: every Amount value — whether produced by the constructor or by add,
subtract, multiply, or divide — is non-negative and equal to its own
rounding to 2 decimal places; the constructor throws on negative or
non-numeric input, subtract throws whenever the result would be negative,
and divide throws on a zero divisor. -/
theorem C9_amount_invariants :
    (∀ o a, Amount.create o = .ok a → isAmountValue a) ∧
    (∀ a b c, Amount.add a b = .ok c → isAmountValue c) ∧
    (∀ a b c, Amount.subtract a b = .ok c → isAmountValue c) ∧
    (∀ a f c, Amount.multiply a f = .ok c → isAmountValue c) ∧
    (∀ a d c, Amount.divide a d = .ok c → isAmountValue c) ∧
    (Amount.create none = .error ("Amount must be a non-negative number")) ∧
    (∀ n, n < 0 →
      Amount.create (some n) = .error ("Amount must be a non-negative number")) ∧
    (∀ a b, a < b →
      Amount.subtract a b = .error ("Cannot subtract amount greater than current value")) ∧
    (∀ a, Amount.divide a 0 = .error ("Cannot divide by zero")) := by
  refine ⟨Amount.create_ok_invariant, ?_, ?_, ?_, ?_, rfl, ?_, ?_, ?_⟩
  · intro a b c h
    exact Amount.create_ok_invariant _ _ h
  · intro a b c h
    unfold Amount.subtract at h
    by_cases hab : a < b
    · simp [hab] at h
    · simp only [hab, if_false] at h
      exact Amount.create_ok_invariant _ _ h
  · intro a f c h
    exact Amount.create_ok_invariant _ _ h
  · intro a d c h
    unfold Amount.divide at h
    by_cases hd : d = 0
    · simp [hd] at h
    · simp only [hd, if_false] at h
      exact Amount.create_ok_invariant _ _ h
  · intro n hn
    simp [Amount.create, hn]
  · intro a b hab
    simp [Amount.subtract, hab]
  · intro a
    simp [Amount.divide]

/-- Witness for C9 at concrete inputs: the constructor on 1 yields a value
satisfying the invariant. -/
theorem C9_amount_invariants_witness : isAmountValue (1 : ℚ) := by
  apply C9_amount_invariants.1 (some 1) 1
  have h0 : ¬ ((1 : ℚ) < 0) := by norm_num
  have hr : roundTo2 (1 : ℚ) = 1 :=
    roundTo2_eval 1 100 1 (by norm_num) (by norm_num) (by norm_num)
  simp [Amount.create, h0, hr]

/-- C10: when a loan's collateral amount is zero, or its collateral times
the price rounds to zero at 2 decimal places, `calculateLtv` throws, and so
do `canActivate` on such a pending loan and `shouldLiquidate` on such an
active loan. (Zero collateral is the special case `collateralAmount = 0` of
the rounding hypothesis, since `roundTo2 0 = 0`.) -/
theorem C10_zero_collateral_ltv_throws (l : Loan) (price threshold : ℚ)
    (hnn : 0 ≤ l.collateralAmount * price)
    (h0 : roundTo2 (l.collateralAmount * price) = 0) :
    l.calculateLtv price =
      .error ("Collateral value cannot be zero when calculating LTV") ∧
    (l.status = .PENDING → l.canActivate price threshold =
      .error ("Collateral value cannot be zero when calculating LTV")) ∧
    (l.status = .ACTIVE → l.shouldLiquidate price threshold =
      .error ("Collateral value cannot be zero when calculating LTV")) := by
  have hmul : Amount.multiply l.collateralAmount price = .ok 0 := by
    have hlt : ¬ (l.collateralAmount * price < 0) := not_lt.mpr hnn
    simp [Amount.multiply, Amount.create, hlt, h0]
  have hltv : l.calculateLtv price =
      .error ("Collateral value cannot be zero when calculating LTV") := by
    simp only [Loan.calculateLtv, hmul, exceptBindOk]
    simp [LtvRatio.create]
  refine ⟨hltv, ?_, ?_⟩
  · intro hs
    simp [Loan.canActivate, hs, hltv, exceptMapError]
  · intro hs
    simp [Loan.shouldLiquidate, hs, hltv, exceptMapError]

/-- Witness for C10: a pending loan with collateral 0.01 BSK at price 0.1
cannot be evaluated for activation — the LTV computation throws. -/
theorem C10_zero_collateral_ltv_throws_witness :
    (Loan.reconstruct ("L1") ("B1") 1000 (1/100) ("BSK") .PENDING).canActivate
      (1/10) 50 =
      .error ("Collateral value cannot be zero when calculating LTV") := by
  have h := C10_zero_collateral_ltv_throws
    (Loan.reconstruct ("L1") ("B1") 1000 (1/100) ("BSK") .PENDING) (1/10) 50
    (by norm_num [Loan.reconstruct])
    (by
      show roundTo2 ((1/100 : ℚ) * (1/10)) = 0
      exact roundTo2_eval _ 0 _ (by norm_num) (by norm_num) (by norm_num))
  exact h.2.1 rfl

/-- C3 (amended): for an active loan whose LTV computation yields `ltv`,
`shouldLiquidate` at the default threshold 80 returns true exactly when the
LTV strictly exceeds 80; a loan whose LTV equals the threshold exactly is
not marked for liquidation. -/
theorem C3_shouldLiquidate_strict (l : Loan) (price ltv : ℚ)
    (hs : l.status = .ACTIVE) (hltv : l.calculateLtv price = .ok ltv) :
    (l.shouldLiquidate price 80 = .ok true ↔ 80 < ltv) ∧
    (l.shouldLiquidate price 80 = .ok false ↔ ltv ≤ 80) := by
  unfold Loan.shouldLiquidate
  rw [hs]
  simp [hltv, exceptMapOk, LtvRatio.isAboveThreshold]

/-- Witness for C3 (amended): an active loan of principal 1000 with 2000
BSK collateral at price 0.25 has LTV 200 percent and is liquidated. -/
theorem C3_shouldLiquidate_strict_witness :
    (Loan.reconstruct ("L2") ("B2") 1000 2000 ("BSK") .ACTIVE).shouldLiquidate
      (1/4) 80 = .ok true := by
  have hmul : roundTo2 ((2000 : ℚ) * (1/4)) = 500 :=
    roundTo2_eval _ 50000 _ (by norm_num) (by norm_num) (by norm_num)
  have hltv : (Loan.reconstruct ("L2") ("B2") 1000 2000 ("BSK") .ACTIVE).calculateLtv
      (1/4) = .ok 200 := by
    have h0 : ¬ ((2000 : ℚ) * (1/4) < 0) := by norm_num
    simp only [Loan.calculateLtv, Amount.multiply, Amount.create, Loan.reconstruct,
      h0, if_false, hmul, exceptBindOk]
    have h5 : ((500 : ℚ) = 0) = False := by norm_num
    simp [LtvRatio.create, h5]
    norm_num
  exact (C3_shouldLiquidate_strict _ _ 200 rfl hltv).1.mpr (by norm_num)

/-- C3 counterexample: an active loan of principal 1000 with 2500 BSK
collateral at price 0.5 has LTV exactly 80 percent, yet `shouldLiquidate`
at threshold 80 answers false — the comparison in the code is strict, so
"LTV greater than or equal to the threshold" over-claims at equality. -/
theorem C3_counterexample :
    (Loan.reconstruct ("L1") ("B1") 1000 2500 ("BSK") .ACTIVE).calculateLtv
      (1/2) = .ok 80 ∧
    (Loan.reconstruct ("L1") ("B1") 1000 2500 ("BSK") .ACTIVE).shouldLiquidate
      (1/2) 80 = .ok false := by
  have hmul : roundTo2 ((2500 : ℚ) * (1/2)) = 1250 :=
    roundTo2_eval _ 125000 _ (by norm_num) (by norm_num) (by norm_num)
  have h0 : ¬ ((2500 : ℚ) * (1/2) < 0) := by norm_num
  have h5 : ((1250 : ℚ) = 0) = False := by norm_num
  have hltv : (Loan.reconstruct ("L1") ("B1") 1000 2500 ("BSK") .ACTIVE).calculateLtv
      (1/2) = .ok 80 := by
    simp only [Loan.calculateLtv, Amount.multiply, Amount.create, Loan.reconstruct,
      h0, if_false, hmul, exceptBindOk]
    simp [LtvRatio.create, h5]
    norm_num
  refine ⟨hltv, ?_⟩
  unfold Loan.shouldLiquidate
  rw [if_neg (by decide), hltv, exceptMapOk]
  simp only [Except.ok.injEq, decide_eq_false_iff_not, LtvRatio.isAboveThreshold]
  norm_num

/-- C4 (amended): for a pending loan whose LTV computation yields `ltv`,
`canActivate` at the default threshold 50 returns true exactly when the
LTV is strictly below 50; a loan whose LTV equals 50 exactly is not
activated. -/
theorem C4_canActivate_strict (l : Loan) (price ltv : ℚ)
    (hs : l.status = .PENDING) (hltv : l.calculateLtv price = .ok ltv) :
    (l.canActivate price 50 = .ok true ↔ ltv < 50) ∧
    (l.canActivate price 50 = .ok false ↔ 50 ≤ ltv) := by
  unfold Loan.canActivate
  rw [hs]
  simp [hltv, exceptMapOk, LtvRatio.isBelowThreshold]

/-- Witness for C4 (amended): a pending loan of principal 1000 with 4000
BSK collateral at price 1 has LTV 25 percent and can activate. -/
theorem C4_canActivate_strict_witness :
    (Loan.reconstruct ("L2") ("B2") 1000 4000 ("BSK") .PENDING).canActivate
      1 50 = .ok true := by
  have hmul : roundTo2 ((4000 : ℚ) * 1) = 4000 :=
    roundTo2_eval _ 400000 _ (by norm_num) (by norm_num) (by norm_num)
  have hltv : (Loan.reconstruct ("L2") ("B2") 1000 4000 ("BSK") .PENDING).calculateLtv
      1 = .ok 25 := by
    have h0 : ¬ ((4000 : ℚ) * 1 < 0) := by norm_num
    simp only [Loan.calculateLtv, Amount.multiply, Amount.create, Loan.reconstruct,
      h0, if_false, hmul, exceptBindOk]
    have h5 : ((4000 : ℚ) = 0) = False := by norm_num
    simp [LtvRatio.create, h5]
    norm_num
  exact (C4_canActivate_strict _ _ 25 rfl hltv).1.mpr (by norm_num)

/-- C4 counterexample: a pending loan of principal 1000 with 2000 BSK
collateral at price 1 has LTV exactly 50 percent, yet `canActivate` at
threshold 50 answers false — the comparison in the code is strict, so
"LTV less than or equal to the threshold" over-claims at equality. -/
theorem C4_counterexample :
    (Loan.reconstruct ("L1") ("B1") 1000 2000 ("BSK") .PENDING).calculateLtv
      1 = .ok 50 ∧
    (Loan.reconstruct ("L1") ("B1") 1000 2000 ("BSK") .PENDING).canActivate
      1 50 = .ok false := by
  have hmul : roundTo2 ((2000 : ℚ) * 1) = 2000 :=
    roundTo2_eval _ 200000 _ (by norm_num) (by norm_num) (by norm_num)
  have h0 : ¬ ((2000 : ℚ) * 1 < 0) := by norm_num
  have h5 : ((2000 : ℚ) = 0) = False := by norm_num
  have hltv : (Loan.reconstruct ("L1") ("B1") 1000 2000 ("BSK") .PENDING).calculateLtv
      1 = .ok 50 := by
    simp only [Loan.calculateLtv, Amount.multiply, Amount.create, Loan.reconstruct,
      h0, if_false, hmul, exceptBindOk]
    simp [LtvRatio.create, h5]
    norm_num
  refine ⟨hltv, ?_⟩
  unfold Loan.canActivate
  rw [if_neg (by decide), hltv, exceptMapOk]
  simp only [Except.ok.injEq, decide_eq_false_iff_not, LtvRatio.isBelowThreshold]
  norm_num

/-- Every single entity operation either stutters or makes one of the three
transitions the entity allows. -/
lemma Loan.applyOp_legalStep (l : Loan) (op : LoanOp) :
    legalStep l.status (l.applyOp op).status = true := by
  cases op with
  | activate =>
    by_cases h : l.status = .PENDING
    · simp [Loan.applyOp, Loan.activate, h, legalStep]
    · simp [Loan.applyOp, Loan.activate, h, legalStep]
  | liquidate =>
    by_cases h : l.status = .ACTIVE
    · simp [Loan.applyOp, Loan.liquidate, h, legalStep]
    · simp [Loan.applyOp, Loan.liquidate, h, legalStep]
  | repay =>
    by_cases h : l.status = .ACTIVE
    · simp [Loan.applyOp, Loan.repay, h, legalStep]
    · simp [Loan.applyOp, Loan.repay, h, legalStep]
  | addCollateral a =>
    by_cases h : l.collateralAmount + a < 0
    · simp [Loan.applyOp, Loan.addCollateral, Amount.add, Amount.create, h,
        exceptMapError, legalStep]
    · simp [Loan.applyOp, Loan.addCollateral, Amount.add, Amount.create, h,
        exceptMapOk, legalStep]

/-- The status trace of any operation sequence is a chain of legal steps. -/
lemma Loan.chain_statusTraceAux (ops : List LoanOp) : ∀ l : Loan,
    List.Chain' (fun s t => legalStep s t = true) (l.status :: l.statusTraceAux ops) := by
  induction ops with
  | nil =>
    intro l
    simp [Loan.statusTraceAux]
  | cons op rest ih =>
    intro l
    rw [Loan.statusTraceAux]
    exact List.chain'_cons.mpr ⟨l.applyOp_legalStep op, ih (l.applyOp op)⟩

/-- C2 (amended): under any sequence of entity operations, consecutive
statuses in a loan's trace are equal or one of the transitions
(PENDING, ACTIVE) via activate, (ACTIVE, LIQUIDATED) via liquidate,
(ACTIVE, REPAID) via repay. There is no LIQUIDATING status in the code:
liquidation is a single step out of ACTIVE, and REPAID is a fourth status
the specification's lifecycle does not name. -/
theorem C2_status_transitions (l : Loan) (ops : List LoanOp) :
    List.Chain' (fun s t => legalStep s t = true) (l.statusTrace ops) :=
  Loan.chain_statusTraceAux ops l

/-- C2 counterexample: from a fresh loan, activate-then-liquidate produces
the status trace PENDING, ACTIVE, LIQUIDATED, which is not a prefix of the
specification's lifecycle new → active → liquidating → liquidated (the
transition into LIQUIDATED comes straight from ACTIVE); and activate-then-
repay reaches REPAID, a status outside the specification's lifecycle. -/
theorem C2_counterexample :
    (Loan.create ("L1") ("B1") 1000 2000 ("BSK")).statusTrace
      [.activate, .liquidate] = [.PENDING, .ACTIVE, .LIQUIDATED] ∧
    List.isPrefixOf
      (((Loan.create ("L1") ("B1") 1000 2000 ("BSK")).statusTrace
        [.activate, .liquidate]).map specStatusOf)
      (specLifecycle.map some) = false ∧
    (Loan.create ("L1") ("B1") 1000 2000 ("BSK")).statusTrace
      [.activate, .repay] = [.PENDING, .ACTIVE, .REPAID] ∧
    specStatusOf .REPAID = none := by
  refine ⟨rfl, rfl, rfl, rfl⟩

/-- C1 (amended): the collateral top-up use case checks only that the loan
exists and that the borrower owns it — it never inspects the status. For
any loan found under the loanId with matching borrower and valid inputs,
the top-up succeeds whatever the status (including LIQUIDATED and REPAID)
and the saved loan's collateral has increased by the amount; the only
domain rejections on this path are LOAN_NOT_FOUND and BORROWER_MISMATCH. -/
theorem C1_topup_ignores_status (repo : Repo) (req : TopUpRequest) (loan : Loan)
    (lid bid : String) (a : ℚ)
    (hlid : LoanId.create req.loanId = .ok lid)
    (hbid : BorrowerId.create req.borrowerId = .ok bid)
    (hamt : Amount.create req.amount = .ok a)
    (hasset : req.assetType = ("BSK"))
    (hfind : repo lid = some loan)
    (hown : loan.borrowerId = bid)
    (hid : loan.id = lid)
    (hcoll : isAmountValue loan.collateralAmount) :
    SubmitCollateralTopUpUseCase.execute repo req =
      .ok (Repo.save repo { loan with collateralAmount := loan.collateralAmount + a }) ∧
    Repo.save repo { loan with collateralAmount := loan.collateralAmount + a } lid =
      some { loan with collateralAmount := loan.collateralAmount + a } := by
  have hainv : isAmountValue a := Amount.create_ok_invariant _ _ hamt
  have hsum : ¬ (loan.collateralAmount + a < 0) := by
    have h1 := hcoll.1
    have h2 := hainv.1
    push_neg
    linarith
  have hround : roundTo2 (loan.collateralAmount + a) = loan.collateralAmount + a :=
    roundTo2_add_fixed _ _ hcoll.2 hainv.2
  have hadd : loan.addCollateral a =
      .ok { loan with collateralAmount := loan.collateralAmount + a } := by
    simp [Loan.addCollateral, Amount.add, Amount.create, hsum, hround, exceptMapOk]
  have hassetok : AssetType.create req.assetType = .ok ("BSK") := by
    simp [AssetType.create, hasset]
  constructor
  · simp only [SubmitCollateralTopUpUseCase.execute, hlid, hbid, hamt, hassetok,
      exceptBindOk, hfind, hown, if_pos rfl, hadd, if_true]
  · simp [Repo.save, hid]

/-- Witness for C1 (amended): a top-up of 5 on a LIQUIDATED loan succeeds
and raises the collateral from 2000 to 2005. -/
theorem C1_topup_ignores_status_witness :
    SubmitCollateralTopUpUseCase.execute
      (fun i => if i = ("L9") then
        some (Loan.reconstruct ("L9") ("B9") 1000 2000 ("BSK") .LIQUIDATED) else none)
      ⟨("req-9"), ("L9"), ("B9"), some 5, ("BSK")⟩ =
      .ok (Repo.save
        (fun i => if i = ("L9") then
          some (Loan.reconstruct ("L9") ("B9") 1000 2000 ("BSK") .LIQUIDATED) else none)
        { Loan.reconstruct ("L9") ("B9") 1000 2000 ("BSK") .LIQUIDATED with
          collateralAmount := 2000 + 5 }) := by
  have htrim1 : trimString ("L9") = ("L9") := by decide
  have htrim2 : trimString ("B9") = ("B9") := by decide
  have h1 : LoanId.create ("L9") = .ok ("L9") := by simp [LoanId.create, htrim1]
  have h2 : BorrowerId.create ("B9") = .ok ("B9") := by simp [BorrowerId.create, htrim2]
  have h0 : ¬ ((5 : ℚ) < 0) := by norm_num
  have hr5 : roundTo2 (5 : ℚ) = 5 :=
    roundTo2_eval _ 500 _ (by norm_num) (by norm_num) (by norm_num)
  have h3 : Amount.create (some 5) = .ok 5 := by simp [Amount.create, h0, hr5]
  have hfind : (fun i => if i = ("L9") then
      some (Loan.reconstruct ("L9") ("B9") 1000 2000 ("BSK") .LIQUIDATED) else none)
      ("L9") = some (Loan.reconstruct ("L9") ("B9") 1000 2000 ("BSK") .LIQUIDATED) := by
    simp
  have hcoll : isAmountValue
      (Loan.reconstruct ("L9") ("B9") 1000 2000 ("BSK") .LIQUIDATED).collateralAmount := by
    refine ⟨by norm_num [Loan.reconstruct], ?_⟩
    show roundTo2 (2000 : ℚ) = 2000
    exact roundTo2_eval _ 200000 _ (by norm_num) (by norm_num) (by norm_num)
  exact (C1_topup_ignores_status _ _ _ _ _ 5 h1 h2 h3 rfl hfind rfl rfl hcoll).1

/-- C1 counterexample: a collateral top-up on a loan whose status is
LIQUIDATED is not rejected — it succeeds and the stored collateral grows
from 2000 to 2500, refuting both the Terminal rejection and the
unchanged-collateral parts of the claim. -/
theorem C1_counterexample :
    (SubmitCollateralTopUpUseCase.execute
      (fun i => if i = ("loan-123") then
        some (Loan.reconstruct ("loan-123") ("borrower-456") 1000 2000 ("BSK") .LIQUIDATED)
        else none)
      ⟨("req-1"), ("loan-123"), ("borrower-456"), some 500, ("BSK")⟩).map
      (fun r => r ("loan-123")) =
    .ok (some (Loan.reconstruct ("loan-123") ("borrower-456") 1000 2500 ("BSK")
      .LIQUIDATED)) := by
  have htrim1 : trimString ("loan-123") = ("loan-123") := by decide
  have htrim2 : trimString ("borrower-456") = ("borrower-456") := by decide
  have h1 : LoanId.create ("loan-123") = .ok ("loan-123") := by
    simp [LoanId.create, htrim1]
  have h2 : BorrowerId.create ("borrower-456") = .ok ("borrower-456") := by
    simp [BorrowerId.create, htrim2]
  have h0 : ¬ ((500 : ℚ) < 0) := by norm_num
  have hr500 : roundTo2 (500 : ℚ) = 500 :=
    roundTo2_eval _ 50000 _ (by norm_num) (by norm_num) (by norm_num)
  have h3 : Amount.create (some 500) = .ok 500 := by simp [Amount.create, h0, hr500]
  have h4 : AssetType.create ("BSK") = .ok ("BSK") := by simp [AssetType.create]
  have hsum0 : ¬ ((2000 : ℚ) + 500 < 0) := by norm_num
  have hra : roundTo2 ((2000 : ℚ) + 500) = 2500 :=
    roundTo2_eval _ 250000 _ (by norm_num) (by norm_num) (by norm_num)
  have hrb : roundTo2 (2500 : ℚ) = 2500 :=
    roundTo2_eval _ 250000 _ (by norm_num) (by norm_num) (by norm_num)
  have hadd : (Loan.reconstruct ("loan-123") ("borrower-456") 1000 2000 ("BSK")
      .LIQUIDATED).addCollateral 500 =
      .ok (Loan.reconstruct ("loan-123") ("borrower-456") 1000 2500 ("BSK")
        .LIQUIDATED) := by
    simp [Loan.addCollateral, Amount.add, Amount.create, Loan.reconstruct,
      hsum0, hra, hrb, exceptMapOk]
  simp only [SubmitCollateralTopUpUseCase.execute, h1, h2, h3, h4, exceptBindOk]
  simp only [if_true]
  simp only [show (Loan.reconstruct ("loan-123") ("borrower-456") 1000 2000 ("BSK")
    .LIQUIDATED).borrowerId = ("borrower-456") from rfl, if_pos rfl, hadd,
    exceptBindOk, exceptMapOk]
  simp [Repo.save, Loan.reconstruct, exceptMapOk]

/-- C5 (amended): the retry helper's defaults are 3 attempts maximum, an
initial delay of 100 ms doubling per attempt, and a delay cap of 5000 ms,
with no jitter; an operation that keeps failing with retryable errors is
abandoned after the third attempt and the error is rethrown to the caller,
a non-retryable error is rethrown at once, and a first-attempt success
returns without any delay. -/
theorem C5_retry_defaults (T : Type) :
    (DEFAULT_RETRY_OPTIONS.maxAttempts = 3 ∧
      DEFAULT_RETRY_OPTIONS.initialDelayMs = 100 ∧
      DEFAULT_RETRY_OPTIONS.maxDelayMs = 5000 ∧
      DEFAULT_RETRY_OPTIONS.backoffFactor = 2) ∧
    (∀ e : JsError, defaultRetryable e = true →
      withRetry (fun _ => (.error e : Except JsError T)) DEFAULT_RETRY_OPTIONS =
        (.error e, [100, 200])) ∧
    (∀ e : JsError, defaultRetryable e = false →
      withRetry (fun _ => (.error e : Except JsError T)) DEFAULT_RETRY_OPTIONS =
        (.error e, [])) ∧
    (∀ (fn : Nat → Except JsError T) (v : T), fn 1 = .ok v →
      withRetry fn DEFAULT_RETRY_OPTIONS = (.ok v, [])) := by
  have hm1 : min ((100 : ℚ) * 2 ^ (1 - 1 : ℕ)) 5000 = 100 := by
    rw [min_eq_left (by norm_num)]
    norm_num
  have hm2 : min ((100 : ℚ) * 2 ^ (2 - 1 : ℕ)) 5000 = 200 := by
    rw [min_eq_left (by norm_num)]
    norm_num
  refine ⟨⟨rfl, rfl, rfl, rfl⟩, ?_, ?_, ?_⟩
  · intro e he
    simp [withRetry, withRetryGo, DEFAULT_RETRY_OPTIONS, he, hm1, hm2]
    refine ⟨by norm_num, ?_⟩
    rw [inf_eq_min, min_eq_left (by norm_num)]
    norm_num
  · intro e he
    simp [withRetry, withRetryGo, DEFAULT_RETRY_OPTIONS, he]
  · intro fn v hfn
    simp [withRetry, withRetryGo, DEFAULT_RETRY_OPTIONS, hfn]

/-- Witness for C5 (amended) at a concrete retryable error (ECONNREFUSED):
three failing attempts, delays 100 ms and 200 ms, error rethrown. -/
theorem C5_retry_defaults_witness :
    withRetry (fun _ => (.error ⟨some ("ECONNREFUSED"), none⟩ : Except JsError Nat))
      DEFAULT_RETRY_OPTIONS = (.error ⟨some ("ECONNREFUSED"), none⟩, [100, 200]) := by
  apply (C5_retry_defaults Nat).2.1
  simp [defaultRetryable]

/-- C5 counterexample: a venue-style operation failing each attempt with a
retryable connection error surfaces the failure to the caller after the
third attempt, with backoff delays 100 ms and 200 ms — there is a retry
cap, and neither the claimed 500 ms base nor the claimed 30 s cap is the
default. -/
theorem C5_counterexample :
    withRetry (fun _ => (.error ⟨some ("ECONNRESET"), none⟩ : Except JsError Unit))
      DEFAULT_RETRY_OPTIONS = (.error ⟨some ("ECONNRESET"), none⟩, [100, 200]) ∧
    DEFAULT_RETRY_OPTIONS.initialDelayMs ≠ 500 ∧
    DEFAULT_RETRY_OPTIONS.maxDelayMs ≠ 30000 := by
  have hm1 : min ((100 : ℚ) * 2 ^ (1 - 1 : ℕ)) 5000 = 100 := by
    rw [min_eq_left (by norm_num)]
    norm_num
  have hm2 : min ((100 : ℚ) * 2 ^ (2 - 1 : ℕ)) 5000 = 200 := by
    rw [min_eq_left (by norm_num)]
    norm_num
  have he : defaultRetryable ⟨some ("ECONNRESET"), none⟩ = true := by
    simp [defaultRetryable]
  refine ⟨?_, by norm_num [DEFAULT_RETRY_OPTIONS], by norm_num [DEFAULT_RETRY_OPTIONS]⟩
  simp [withRetry, withRetryGo, DEFAULT_RETRY_OPTIONS, he, hm1, hm2]
  refine ⟨by norm_num, ?_⟩
  rw [inf_eq_min, min_eq_left (by norm_num)]
  norm_num

/-- C6 (amended): the eventId stamped on a published event is the fresh
UUID drawn by that `publishEvent` call — it is not derived from the
message, so two publishes of the same transition that draw distinct UUIDs
record distinct eventIds. -/
theorem C6_eventId_is_fresh_uuid (selfPublishing : Bool)
    (u now snsId : String) (msg : LoanEventMessage) (store : List StoredEvent) :
    (EventPublisher.publishEvent selfPublishing u now snsId msg store).2 =
      ⟨u, msg.eventType, ("OUTBOUND"), msg, now⟩ :: store ∧
    ((EventPublisher.publishEvent selfPublishing u now snsId msg store).2.head?.map
      StoredEvent.id) = some u := by
  unfold EventPublisher.publishEvent
  by_cases h : selfPublishing = true
  · simp [h]
  · simp [h]

/-- C6 counterexample: publishing the same loan-event message twice (an
at-least-once redelivery) records two events whose eventIds are the two
distinct freshly drawn UUIDs — retried publishes of one transition do not
carry one deterministic eventId. -/
theorem C6_counterexample :
    ((EventPublisher.publishEvent true ("uuid-b") ("t1") ("")
        ⟨("LOAN_APPLICATION"), ("req-1"), ("body"), ("t0")⟩
        ((EventPublisher.publishEvent true ("uuid-a") ("t0") ("")
          ⟨("LOAN_APPLICATION"), ("req-1"), ("body"), ("t0")⟩ []).2)).2.map
      StoredEvent.id) = [("uuid-b"), ("uuid-a")] ∧
    ("uuid-b" : String) ≠ ("uuid-a") := by
  refine ⟨rfl, by decide⟩

/-- A body that passes the loan-application schema has a non-empty
requestId. -/
lemma validate_requestId_nonempty (b : RawBody) (rid : String)
    (hrid : b.requestId = some rid)
    (hvalid : validateLoanApplicationRequest b = none) : rid ≠ "" := by
  intro h
  subst h
  simp [validateLoanApplicationRequest, loanApplicationParse, zodNonemptyString,
    hrid, exceptBindError] at hvalid

/-- A body that passes the top-up schema has a non-empty requestId. -/
lemma validateTopUp_requestId_nonempty (b : RawBody) (rid : String)
    (hrid : b.requestId = some rid)
    (hvalid : validateCollateralTopUpRequest b = none) : rid ≠ "" := by
  intro h
  subst h
  simp [validateCollateralTopUpRequest, collateralTopUpParse, zodNonemptyString,
    hrid, exceptBindError] at hvalid

/-- C7: a requestId already in the shared processed set is answered 409
("Request already processed") by both POST endpoints, with the entire state
— processed set, event history, fake liquidation loans — unchanged; and a
fresh requestId is added to the shared set when a request is processed, so
a resubmission afterwards hits the 409 path. -/
theorem C7_duplicate_requestId_409 (st : ApiState) (b : RawBody)
    (rid u now : String) (amt : ℚ) (hrid : b.requestId = some rid) :
    (validateLoanApplicationRequest b = none → rid ∈ st.processedRequests →
      postLoanApplication st b u now amt = (.s409, st)) ∧
    (validateCollateralTopUpRequest b = none → rid ∈ st.processedRequests →
      postCollateralTopUp st b u now amt = (.s409, st)) ∧
    (validateLoanApplicationRequest b = none →
      rid ∈ (postLoanApplication st b u now amt).2.processedRequests) ∧
    (validateCollateralTopUpRequest b = none →
      rid ∈ (postCollateralTopUp st b u now amt).2.processedRequests) := by
  refine ⟨?_, ?_, ?_, ?_⟩
  · intro hvalid hdup
    have hne := validate_requestId_nonempty b rid hrid hvalid
    simp [postLoanApplication, hvalid, idempotencyCheck, hrid, hne, hdup]
  · intro hvalid hdup
    have hne := validateTopUp_requestId_nonempty b rid hrid hvalid
    simp [postCollateralTopUp, hvalid, idempotencyCheck, hrid, hne, hdup]
  · intro hvalid
    have hne := validate_requestId_nonempty b rid hrid hvalid
    by_cases hdup : rid ∈ st.processedRequests
    · simp [postLoanApplication, hvalid, idempotencyCheck, hrid, hne, hdup]
    · simp [postLoanApplication, hvalid, idempotencyCheck, hrid, hne, hdup]
  · intro hvalid
    have hne := validateTopUp_requestId_nonempty b rid hrid hvalid
    by_cases hdup : rid ∈ st.processedRequests
    · simp [postCollateralTopUp, hvalid, idempotencyCheck, hrid, hne, hdup]
    · simp [postCollateralTopUp, hvalid, idempotencyCheck, hrid, hne, hdup]

/-- Witness for C7: with requestId r1 already processed, the loan
application endpoint answers 409 and the state is untouched. -/
theorem C7_duplicate_requestId_409_witness :
    postLoanApplication ⟨[("r1")], [], []⟩
      ⟨some ("r1"), some ("L1"), some ("B1"), some ("5")⟩ ("u1") ("t1") 5 =
      (.s409, ⟨[("r1")], [], []⟩) := by
  exact (C7_duplicate_requestId_409 ⟨[("r1")], [], []⟩
    ⟨some ("r1"), some ("L1"), some ("B1"), some ("5")⟩ ("r1") ("u1") ("t1") 5
    rfl).1 rfl (by simp)

/-- C8 (amended): the loan-application validation passes exactly when the
four fields are each present and a non-empty string; it enforces no length
cap on loanId or borrowerId and no numeric constraint on amount. -/
theorem C8_validation_shape (b : RawBody) :
    validateLoanApplicationRequest b = none ↔
      ((∃ r, b.requestId = some r ∧ r ≠ "") ∧
       (∃ l, b.loanId = some l ∧ l ≠ "") ∧
       (∃ m, b.amount = some m ∧ m ≠ "") ∧
       (∃ w, b.borrowerId = some w ∧ w ≠ "")) := by
  obtain ⟨rq, li, bo, am⟩ := b
  cases rq <;> cases li <;> cases bo <;> cases am <;>
    simp only [validateLoanApplicationRequest, loanApplicationParse,
      zodNonemptyString] <;>
    (try split_ifs) <;>
    simp_all [exceptBindOk, exceptBindError]

/-- C8 counterexample: a body whose loanId is 129 characters long and whose
amount is the non-positive non-decimal string -5 passes the code's
validation, although the claim says both must be rejected with a 400. -/
theorem C8_counterexample :
    validateLoanApplicationRequest
      ⟨some ("r1"), some (String.mk (List.replicate 129 'a')), some ("B1"),
        some ("-5")⟩ = none ∧
    (String.mk (List.replicate 129 'a')).length = 129 ∧
    isPositiveDecimalStr ("-5") = false ∧
    specLoanApplicationValid
      ⟨some ("r1"), some (String.mk (List.replicate 129 'a')), some ("B1"),
        some ("-5")⟩ = false := by
  have hne : (String.mk (List.replicate 129 'a') = ("" : String)) = False := by
    simp [String.ext_iff]
  refine ⟨?_, by simp [String.length], ?_, ?_⟩
  · simp [validateLoanApplicationRequest, loanApplicationParse, zodNonemptyString,
      hne, exceptBindOk]
  · decide
  · simp [specLoanApplicationValid, isPositiveDecimalStr, isDigitChar, hne,
      String.length]

/-- Witness for C6 (amended) at concrete inputs: the recorded eventId is
the UUID drawn by the call. -/
theorem C6_eventId_is_fresh_uuid_witness :
    ((EventPublisher.publishEvent true ("u-1") ("t0") ("")
      ⟨("LOAN_APPLICATION"), ("r1"), ("d"), ("t0")⟩ []).2.head?.map
      StoredEvent.id) = some ("u-1") :=
  (C6_eventId_is_fresh_uuid true ("u-1") ("t0") ("")
    ⟨("LOAN_APPLICATION"), ("r1"), ("d"), ("t0")⟩ []).2

/-- Witness for C8 (amended) at a concrete body: four non-empty string
fields pass the validation. -/
theorem C8_validation_shape_witness :
    validateLoanApplicationRequest
      ⟨some ("r2"), some ("L2"), some ("B2"), some ("7")⟩ = none :=
  (C8_validation_shape ⟨some ("r2"), some ("L2"), some ("B2"), some ("7")⟩).mpr
    ⟨⟨("r2"), rfl, by decide⟩, ⟨("L2"), rfl, by decide⟩,
     ⟨("7"), rfl, by decide⟩, ⟨("B2"), rfl, by decide⟩⟩
